import Mathlib

/-!
# pocsagsdr: the JNI bridge `native-lib.cpp`

A shallow embedding of `app/src/main/cpp/native-lib.cpp`.

The file holds three file-scope statics (`gJvm`, `gController`,
`gOnMessageMethod`), the load hook `JNI_OnLoad` and the native method
`Java_com_f4hbw_pocsagsdr_SDRController_nativeProcess`.  The native method is
straight-line code over the JNI function table, so the embedding is explicit
state passing over a `Machine`:

* the three statics;
* the part of the Java side the native code can touch: the contents of the
  byte arrays (`heap`);
* the sequence of JNI calls made so far (`trace`), each with its arguments
  and its result;
* the fault flag of the interface layer (`pending`).

What a JNI function answers is not decided by this repository.  The answers
that can differ from call to call are the fields of `JNIEnv`: whether
`NewGlobalRef` and `GetByteArrayElements` succeed or answer `NULL`, the class
of an object, and the method table of a class.  The rest of a JNI function
follows its documented contract in `jni.h`.

Scope of the model: `thiz` and `data` are valid (non-null) references,
`NewStringUTF` succeeds, and the body of the Java callback is not part of the
native code: its invocation is recorded in the trace and nothing else.  The
native code has no statement that stops early, so every statement of the
method is executed in every call; a fault of the interface layer stays
pending while the native code runs and reaches the Java caller when the
method returns (`invoke`).

The string of line 34 is built with the embedded `std::to_string`
(`to_string`); the claims speak of the decimal rendering of the length, which
is a definition of its own (`decimalRendering`, on `Nat.digits`), and the two
are proved equal (`to_string_eq_decimalRendering`).

A second, statement-level presentation of the same method (`Thread.step`)
serves the interleaved execution of two threads; a thread that runs alone does
exactly what the native method does (`runAlone_eq_nativeProcess`).
-/

namespace PocsagSdr

/-! ## Data model -/

/-- Identity of an object on the Java heap. -/
abbrev JObject := Nat

/-- Identity of a Java class. -/
abbrev JClass := Nat

/-- A non-null `jmethodID`. -/
abbrev MethodID := Nat

/-- A non-null `JavaVM*`. -/
abbrev JavaVM := Nat

/-- The C type `jint`, a 32-bit signed integer.  The code does no arithmetic on
it (it is only printed and returned), so it is carried as an `Int`; every
statement below holds for every `Int`, the 32-bit ones included. -/
abbrev jint := Int

/-- A non-null global reference and the object it refers to. -/
structure GlobalRef where
  target : JObject
deriving DecidableEq, Repr

/-- A local reference to a `java.lang.String`, with the characters it holds. -/
structure JString where
  chars : String
deriving DecidableEq, Repr

/-- A native buffer handed out by `GetByteArrayElements`: the elements it
holds and the array it was taken from. -/
structure Buffer where
  array : JObject
  elems : List Int
deriving DecidableEq, Repr

/-- Release mode `JNI_ABORT` of `jni.h`: free the buffer, copy nothing back. -/
def JNI_ABORT : Int := 2

/-- Version constant `JNI_VERSION_1_6` of `jni.h`. -/
def JNI_VERSION_1_6 : Int := 0x00010006

/-- One call of a JNI function, with its arguments and (where it has one) its
result; `none` stands for `NULL`. -/
inductive Event where
  | NewGlobalRef (obj : JObject) (result : Option GlobalRef)
  | DeleteGlobalRef (ref : Option GlobalRef)
  | GetObjectClass (obj : JObject) (result : JClass)
  | GetMethodID (cls : JClass) (name sig : String) (result : Option MethodID)
  | GetByteArrayElements (array : JObject) (result : Option Buffer)
  | NewStringUTF (bytes : String) (result : JString)
  | CallVoidMethod (obj : Option GlobalRef) (methodID : Option MethodID) (arg : JString)
  | DeleteLocalRef (ref : JString)
  | ReleaseByteArrayElements (array : JObject) (elems : Option Buffer) (mode : Int)
deriving DecidableEq, Repr

/-- What the JNI layer answers during one native call (the `JNIEnv*` of the
calling thread). -/
structure JNIEnv where
  /-- Whether `NewGlobalRef` succeeds (`false`: it answers `NULL`). -/
  globalRefOk : Bool
  /-- The answer of `GetObjectClass`: the class of an object. -/
  classOf : JObject → JClass
  /-- The answer of `GetMethodID`: the handle of a method of a class, `none`
  (`NULL`) when the class has no such method. -/
  methodOf : JClass → String → String → Option MethodID
  /-- Whether `GetByteArrayElements` succeeds (`false`: it answers `NULL`). -/
  pinOk : Bool

/-- The state the native code runs in. -/
structure Machine where
  /-- The static `JavaVM* gJvm` of line 9. -/
  gJvm : Option JavaVM
  /-- The static `jobject gController` of line 10. -/
  gController : Option GlobalRef
  /-- The static `jmethodID gOnMessageMethod` of line 11. -/
  gOnMessageMethod : Option MethodID
  /-- Contents of the Java byte arrays. -/
  heap : JObject → List Int
  /-- JNI calls made so far, oldest first. -/
  trace : List Event
  /-- A fault raised inside the current native call and not yet delivered. -/
  pending : Bool

/-- The state after static initialisation (lines 9-11: all three statics are
`nullptr`). -/
def Machine.init (heap : JObject → List Int) : Machine :=
  { gJvm := none, gController := none, gOnMessageMethod := none,
    heap := heap, trace := [], pending := false }

/-! ## JNI functions used by the source -/

/-- JNI `NewGlobalRef`: a global reference to `obj`, or `NULL`. -/
def NewGlobalRef (env : JNIEnv) (obj : JObject) (m : Machine) :
    Option GlobalRef × Machine :=
  let r : Option GlobalRef := if env.globalRefOk then some ⟨obj⟩ else none
  (r, { m with trace := m.trace ++ [Event.NewGlobalRef obj r] })

/-- JNI `GetObjectClass`. -/
def GetObjectClass (env : JNIEnv) (obj : JObject) (m : Machine) : JClass × Machine :=
  (env.classOf obj, { m with trace := m.trace ++ [Event.GetObjectClass obj (env.classOf obj)] })

/-- JNI `GetMethodID`. -/
def GetMethodID (env : JNIEnv) (cls : JClass) (name sig : String) (m : Machine) :
    Option MethodID × Machine :=
  (env.methodOf cls name sig,
   { m with trace := m.trace ++ [Event.GetMethodID cls name sig (env.methodOf cls name sig)] })

/-- JNI `GetByteArrayElements` (with `isCopy = nullptr`): a buffer holding the
elements of the array, or `NULL`. -/
def GetByteArrayElements (env : JNIEnv) (array : JObject) (m : Machine) :
    Option Buffer × Machine :=
  let r : Option Buffer := if env.pinOk then some ⟨array, m.heap array⟩ else none
  (r, { m with trace := m.trace ++ [Event.GetByteArrayElements array r] })

/-- JNI `NewStringUTF`: a new `java.lang.String` with the given characters. -/
def NewStringUTF (_env : JNIEnv) (bytes : String) (m : Machine) : JString × Machine :=
  (⟨bytes⟩, { m with trace := m.trace ++ [Event.NewStringUTF bytes ⟨bytes⟩] })

/-- Modelled from the spec: "If the callback method cannot be resolved [...] the
surrounding interface layer's default fault behavior applies (an unhandled
fault propagates to the caller)".  JNI `CallVoidMethod` requires `obj` and
`methodID` to be non-`NULL`: the call is recorded, and a call with either of
them `NULL` raises a fault of the interface layer, which stays pending. -/
def CallVoidMethod (_env : JNIEnv) (obj : Option GlobalRef) (methodID : Option MethodID)
    (arg : JString) (m : Machine) : Machine :=
  { m with
    trace := m.trace ++ [Event.CallVoidMethod obj methodID arg]
    pending := m.pending || obj.isNone || methodID.isNone }

/-- JNI `DeleteLocalRef`. -/
def DeleteLocalRef (_env : JNIEnv) (ref : JString) (m : Machine) : Machine :=
  { m with trace := m.trace ++ [Event.DeleteLocalRef ref] }

/-- JNI `ReleaseByteArrayElements`: with mode `0` or `JNI_COMMIT` (`1`) the
elements of the buffer are copied back into the array, with `JNI_ABORT` they
are not. -/
def ReleaseByteArrayElements (_env : JNIEnv) (array : JObject) (elems : Option Buffer)
    (mode : Int) (m : Machine) : Machine :=
  { m with
    heap :=
      match elems with
      | some b => if mode = JNI_ABORT then m.heap else Function.update m.heap array b.elems
      | none => m.heap
    trace := m.trace ++ [Event.ReleaseByteArrayElements array elems mode] }

/-- C++ `std::to_string(int)`: the decimal digits, with a leading minus sign
for a negative value. -/
def to_string (v : Int) : String :=
  if v < 0 then "-" ++ Nat.repr v.natAbs else Nat.repr v.natAbs

/-- Lines 14-17: `JNI_OnLoad` stores the VM handle and answers the JNI
version. -/
def JNI_OnLoad (vm : JavaVM) (m : Machine) : Int × Machine :=
  (JNI_VERSION_1_6, { m with gJvm := some vm })

/-- Lines 21-43: the native method, statement by statement. -/
def Java_com_f4hbw_pocsagsdr_SDRController_nativeProcess (env : JNIEnv) (thiz : JObject)
    (data : JObject) (length : jint) (m0 : Machine) : jint × Machine :=
  -- if (!gController) { ... }
  let m1 : Machine :=
    if m0.gController.isNone then
      -- gController = env->NewGlobalRef(thiz);
      let r := NewGlobalRef env thiz m0
      let ma : Machine := { r.2 with gController := r.1 }
      -- jclass cls = env->GetObjectClass(thiz);
      let cls := GetObjectClass env thiz ma
      -- gOnMessageMethod = env->GetMethodID(cls, "onNativeMessage", "(Ljava/lang/String;)V");
      let mid := GetMethodID env cls.1 "onNativeMessage" "(Ljava/lang/String;)V" cls.2
      { mid.2 with gOnMessageMethod := mid.1 }
    else m0
  -- jbyte* buf = env->GetByteArrayElements(data, nullptr);
  let buf := GetByteArrayElements env data m1
  -- std::string msg = "Received " + std::to_string(length) + " bytes";
  let msg : String := "Received " ++ to_string length ++ " bytes"
  -- jstring jmsg = env->NewStringUTF(msg.c_str());
  let jmsg := NewStringUTF env msg buf.2
  -- env->CallVoidMethod(gController, gOnMessageMethod, jmsg);
  let m4 := CallVoidMethod env jmsg.2.gController jmsg.2.gOnMessageMethod jmsg.1 jmsg.2
  -- env->DeleteLocalRef(jmsg);
  let m5 := DeleteLocalRef env jmsg.1 m4
  -- env->ReleaseByteArrayElements(data, buf, JNI_ABORT);
  let m6 := ReleaseByteArrayElements env data buf.1 JNI_ABORT m5
  -- return length;
  (length, m6)

/-- Short name of the native method, as the Java side calls it. -/
abbrev nativeProcess := @Java_com_f4hbw_pocsagsdr_SDRController_nativeProcess

/-! ## The interface layer around a native call -/

/-- What the Java caller of a native method gets. -/
inductive Outcome where
  | returned (value : Int)
  | fault
deriving DecidableEq, Repr

/-- Modelled from the spec: "an unhandled fault propagates to the caller".  A
Java-side call of `nativeProcess`: no fault is pending on entry; on return a
fault that the native code left pending is delivered to the caller in place of
the return value. -/
def invoke (env : JNIEnv) (thiz : JObject) (data : JObject) (length : jint)
    (m : Machine) : Outcome × Machine :=
  let r := nativeProcess env thiz data length { m with pending := false }
  (if r.2.pending then Outcome.fault else Outcome.returned r.1, r.2)

/-- The two entry points a sequential run is made of. -/
inductive Call where
  | onLoad (vm : JavaVM)
  | process (env : JNIEnv) (thiz : JObject) (data : JObject) (length : jint)

/-- The state after one entry point has run. -/
def Call.exec : Call → Machine → Machine
  | Call.onLoad vm, m => (JNI_OnLoad vm m).2
  | Call.process env thiz data length, m => (invoke env thiz data length m).2

/-- The state after a sequential run. -/
def run : List Call → Machine → Machine
  | [], m => m
  | c :: cs, m => run cs (c.exec m)

/-! ## Reading a trace -/

/-- The callback invocations of a trace: receiver, method handle and the
characters of the string argument. -/
def callbacks : List Event → List (Option GlobalRef × Option MethodID × String)
  | [] => []
  | Event.CallVoidMethod obj mid arg :: es => (obj, mid, arg.chars) :: callbacks es
  | _ :: es => callbacks es

/-- The JNI calls made by one call of `nativeProcess` started in `m`. -/
def callTrace (env : JNIEnv) (thiz : JObject) (data : JObject) (length : jint)
    (m : Machine) : List Event :=
  (nativeProcess env thiz data length { m with trace := [] }).2.trace

/-- The name and signature the source resolves. -/
def onMessage (env : JNIEnv) (thiz : JObject) : Option MethodID :=
  env.methodOf (env.classOf thiz) "onNativeMessage" "(Ljava/lang/String;)V"

/-- The three JNI calls of the lazy initialisation (lines 26-28), with the
results the JNI layer gives. -/
def initEvents (env : JNIEnv) (thiz : JObject) : List Event :=
  [Event.NewGlobalRef thiz (if env.globalRefOk then some ⟨thiz⟩ else none),
   Event.GetObjectClass thiz (env.classOf thiz),
   Event.GetMethodID (env.classOf thiz) "onNativeMessage" "(Ljava/lang/String;)V"
     (onMessage env thiz)]

/-- The five JNI calls of lines 31-40, in program order: pin, create the
string, call back, delete the string, release the pin. -/
def tailEvents (env : JNIEnv) (data : JObject) (length : jint) (heap : JObject → List Int)
    (recv : Option GlobalRef) (mid : Option MethodID) : List Event :=
  [Event.GetByteArrayElements data (if env.pinOk then some ⟨data, heap data⟩ else none),
   Event.NewStringUTF ("Received " ++ to_string length ++ " bytes")
     ⟨"Received " ++ to_string length ++ " bytes"⟩,
   Event.CallVoidMethod recv mid ⟨"Received " ++ to_string length ++ " bytes"⟩,
   Event.DeleteLocalRef ⟨"Received " ++ to_string length ++ " bytes"⟩,
   Event.ReleaseByteArrayElements data (if env.pinOk then some ⟨data, heap data⟩ else none)
     JNI_ABORT]

/-- A call of `NewGlobalRef`. -/
def Event.isNewGlobalRef : Event → Bool
  | Event.NewGlobalRef _ _ => true
  | _ => false

/-- A call of `DeleteGlobalRef`. -/
def Event.isDeleteGlobalRef : Event → Bool
  | Event.DeleteGlobalRef _ => true
  | _ => false

/-- A call of `GetObjectClass`. -/
def Event.isGetObjectClass : Event → Bool
  | Event.GetObjectClass _ _ => true
  | _ => false

/-- A call of `GetMethodID`. -/
def Event.isGetMethodID : Event → Bool
  | Event.GetMethodID _ _ _ _ => true
  | _ => false

/-- A call of `GetByteArrayElements`. -/
def Event.isPin : Event → Bool
  | Event.GetByteArrayElements _ _ => true
  | _ => false

/-- A call of `NewStringUTF`. -/
def Event.isNewString : Event → Bool
  | Event.NewStringUTF _ _ => true
  | _ => false

/-- A call of `CallVoidMethod`. -/
def Event.isCallback : Event → Bool
  | Event.CallVoidMethod _ _ _ => true
  | _ => false

/-- A call of `DeleteLocalRef`. -/
def Event.isDeleteLocal : Event → Bool
  | Event.DeleteLocalRef _ => true
  | _ => false

/-- A call of `ReleaseByteArrayElements`. -/
def Event.isRelease : Event → Bool
  | Event.ReleaseByteArrayElements _ _ _ => true
  | _ => false

/-- The objects a JNI call is made on: the argument of `NewGlobalRef` and of
`GetObjectClass`, the receiver of `CallVoidMethod`. -/
def Event.onObject (o : JObject) : Event → Bool
  | Event.NewGlobalRef obj _ => obj == o
  | Event.GetObjectClass obj _ => obj == o
  | Event.CallVoidMethod (some g) _ _ => g.target == o
  | _ => false

/-- The JNI layer lets every `NewGlobalRef` of this entry point succeed. -/
def Call.globalRefOk : Call → Bool
  | Call.onLoad _ => true
  | Call.process env _ _ _ => env.globalRefOk

/-! ## Statement-level steps, for interleaved execution -/

/-- Program points of the native method: the statement executed next. -/
inductive PC where
  | test            -- line 25
  | newGlobalRef    -- line 26
  | getObjectClass  -- line 27
  | getMethodID     -- line 28
  | getElements     -- line 31
  | newString       -- lines 34 and 37
  | callback        -- line 38
  | deleteLocal     -- line 39
  | release         -- line 40
  | done            -- line 42 has returned
deriving DecidableEq, Repr

/-- One thread inside the native method: its arguments, its program point and
its locals. -/
structure Thread where
  env : JNIEnv
  thiz : JObject
  data : JObject
  length : jint
  pc : PC
  /-- The local `cls`. -/
  cls : JClass
  /-- The local `buf`. -/
  buf : Option Buffer
  /-- The local `jmsg`. -/
  jmsg : JString
  /-- The value returned, once the thread has returned. -/
  ret : Option jint

/-- A thread entering the native method. -/
def Thread.start (env : JNIEnv) (thiz data : JObject) (length : jint) : Thread :=
  { env := env, thiz := thiz, data := data, length := length, pc := PC.test,
    cls := 0, buf := none, jmsg := ⟨""⟩, ret := none }

/-- One statement of the native method, executed by thread `t` on the shared
state.  The test of line 25 and the assignment of line 26 are separate
steps. -/
def Thread.step (t : Thread) (m : Machine) : Thread × Machine :=
  match t.pc with
  | PC.test =>
      if m.gController.isNone then ({ t with pc := PC.newGlobalRef }, m)
      else ({ t with pc := PC.getElements }, m)
  | PC.newGlobalRef =>
      let r := NewGlobalRef t.env t.thiz m
      ({ t with pc := PC.getObjectClass }, { r.2 with gController := r.1 })
  | PC.getObjectClass =>
      let c := GetObjectClass t.env t.thiz m
      ({ t with pc := PC.getMethodID, cls := c.1 }, c.2)
  | PC.getMethodID =>
      let i := GetMethodID t.env t.cls "onNativeMessage" "(Ljava/lang/String;)V" m
      ({ t with pc := PC.getElements }, { i.2 with gOnMessageMethod := i.1 })
  | PC.getElements =>
      let b := GetByteArrayElements t.env t.data m
      ({ t with pc := PC.newString, buf := b.1 }, b.2)
  | PC.newString =>
      let j := NewStringUTF t.env ("Received " ++ to_string t.length ++ " bytes") m
      ({ t with pc := PC.callback, jmsg := j.1 }, j.2)
  | PC.callback =>
      ({ t with pc := PC.deleteLocal },
       CallVoidMethod t.env m.gController m.gOnMessageMethod t.jmsg m)
  | PC.deleteLocal =>
      ({ t with pc := PC.release }, DeleteLocalRef t.env t.jmsg m)
  | PC.release =>
      ({ t with pc := PC.done, ret := some t.length },
       ReleaseByteArrayElements t.env t.data t.buf JNI_ABORT m)
  | PC.done => (t, m)

/-- A thread running alone for `n` steps. -/
def Thread.runAlone : Nat → Thread → Machine → Thread × Machine
  | 0, t, m => (t, m)
  | n + 1, t, m => Thread.runAlone n (t.step m).1 (t.step m).2

/-- Two threads inside the native method, over one shared state. -/
structure System where
  first : Thread
  second : Thread
  shared : Machine

/-- The thread chosen by the scheduler executes one statement (`false`: the
first thread, `true`: the second). -/
def System.step (s : System) (who : Bool) : System :=
  if who then
    { s with second := (s.second.step s.shared).1, shared := (s.second.step s.shared).2 }
  else
    { s with first := (s.first.step s.shared).1, shared := (s.first.step s.shared).2 }

/-- The system after a schedule. -/
def interleave : List Bool → System → System
  | [], s => s
  | who :: rest, s => interleave rest (s.step who)

/-- Two threads entering the native method when the statics are still
`nullptr`. -/
def raceStart (envA envB : JNIEnv) (A B dA dB : JObject) (LA LB : jint)
    (heap : JObject → List Int) : System :=
  ⟨Thread.start envA A dA LA, Thread.start envB B dB LB, Machine.init heap⟩

/-- A schedule in which both threads execute the test of line 25 before either
executes line 26; the second thread then assigns `gController` last and the
first thread assigns `gOnMessageMethod` last.  Both threads run to their
return. -/
def racySchedule : List Bool :=
  [false, true, false, true, true, true, false, false,
   false, false, false, false, false, true, true, true, true, true]

/-! ## Sample inputs -/

/-- A JNI layer in which every allocation succeeds; an object `o` has class
`o + 100`, and only class `101` has `void onNativeMessage(String)`, with
handle `7`. -/
def sampleEnv : JNIEnv :=
  { globalRefOk := true
    classOf := fun o => o + 100
    methodOf := fun c n s =>
      if c = 101 ∧ n = "onNativeMessage" ∧ s = "(Ljava/lang/String;)V" then some 7 else none
    pinOk := true }

/-- A heap whose array `50` holds three bytes. -/
def sampleHeap : JObject → List Int :=
  fun o => if o = 50 then [1, -2, 3] else []

/-- A call that finds the cache filled: the statics are kept, the five JNI
calls of lines 31-40 are made, the heap is kept. -/
theorem nativeProcess_cached (env : JNIEnv) (thiz data : JObject) (length : jint)
    (m : Machine) (g : GlobalRef) (h : m.gController = some g) :
    nativeProcess env thiz data length m =
      (length, { m with
        trace := m.trace ++ tailEvents env data length m.heap m.gController m.gOnMessageMethod
        pending := m.pending || m.gOnMessageMethod.isNone }) := by
  cases hp : env.pinOk <;>
  simp [nativeProcess, Java_com_f4hbw_pocsagsdr_SDRController_nativeProcess, h,
    GetByteArrayElements, NewStringUTF, CallVoidMethod, DeleteLocalRef,
    ReleaseByteArrayElements, tailEvents, hp]

/-- A call that finds the cache empty: lines 26-28 fill it, then the five JNI
calls of lines 31-40 are made, the heap is kept. -/
theorem nativeProcess_empty (env : JNIEnv) (thiz data : JObject) (length : jint)
    (m : Machine) (h : m.gController = none) :
    nativeProcess env thiz data length m =
      (length, { m with
        gController := if env.globalRefOk then some ⟨thiz⟩ else none
        gOnMessageMethod := onMessage env thiz
        trace := m.trace ++ (initEvents env thiz ++
          tailEvents env data length m.heap (if env.globalRefOk then some ⟨thiz⟩ else none)
            (onMessage env thiz))
        pending := m.pending || (!env.globalRefOk) || (onMessage env thiz).isNone }) := by
  cases hp : env.pinOk <;> cases hg : env.globalRefOk <;>
  simp [nativeProcess, Java_com_f4hbw_pocsagsdr_SDRController_nativeProcess, h,
    NewGlobalRef, GetObjectClass, GetMethodID, onMessage,
    GetByteArrayElements, NewStringUTF, CallVoidMethod, DeleteLocalRef,
    ReleaseByteArrayElements, tailEvents, initEvents, hp, hg]

theorem callTrace_cached (env : JNIEnv) (thiz data : JObject) (length : jint)
    (m : Machine) (g : GlobalRef) (h : m.gController = some g) :
    callTrace env thiz data length m =
      tailEvents env data length m.heap (some g) m.gOnMessageMethod := by
  have h0 : ({ m with trace := [] } : Machine).gController = some g := h
  unfold callTrace
  rw [nativeProcess_cached env thiz data length _ g h0]
  simp [h]

theorem callTrace_empty (env : JNIEnv) (thiz data : JObject) (length : jint)
    (m : Machine) (h : m.gController = none) :
    callTrace env thiz data length m =
      initEvents env thiz ++
        tailEvents env data length m.heap (if env.globalRefOk then some ⟨thiz⟩ else none)
          (onMessage env thiz) := by
  have h0 : ({ m with trace := [] } : Machine).gController = none := h
  unfold callTrace
  rw [nativeProcess_empty env thiz data length _ h0]
  simp

/-- The trace after a call is the trace before it followed by the JNI calls of
the call. -/
theorem trace_nativeProcess (env : JNIEnv) (thiz data : JObject) (length : jint)
    (m : Machine) :
    (nativeProcess env thiz data length m).2.trace =
      m.trace ++ callTrace env thiz data length m := by
  cases h : m.gController with
  | none => simp [callTrace_empty _ _ _ _ _ h, nativeProcess_empty _ _ _ _ _ h]
  | some g => simp [callTrace_cached _ _ _ _ _ g h, nativeProcess_cached _ _ _ _ _ g h, h]

theorem invoke_cached (env : JNIEnv) (thiz data : JObject) (length : jint)
    (m : Machine) (g : GlobalRef) (h : m.gController = some g) :
    invoke env thiz data length m =
      (if m.gOnMessageMethod.isNone then Outcome.fault else Outcome.returned length,
       { m with
        trace := m.trace ++ tailEvents env data length m.heap m.gController m.gOnMessageMethod
        pending := m.gOnMessageMethod.isNone }) := by
  have h0 : ({ m with pending := false } : Machine).gController = some g := h
  unfold invoke
  rw [nativeProcess_cached env thiz data length _ g h0]
  simp

theorem invoke_empty (env : JNIEnv) (thiz data : JObject) (length : jint)
    (m : Machine) (h : m.gController = none) :
    invoke env thiz data length m =
      (if (!env.globalRefOk) || (onMessage env thiz).isNone then Outcome.fault
        else Outcome.returned length,
       { m with
        gController := if env.globalRefOk then some ⟨thiz⟩ else none
        gOnMessageMethod := onMessage env thiz
        trace := m.trace ++ (initEvents env thiz ++
          tailEvents env data length m.heap (if env.globalRefOk then some ⟨thiz⟩ else none)
            (onMessage env thiz))
        pending := (!env.globalRefOk) || (onMessage env thiz).isNone }) := by
  have h0 : ({ m with pending := false } : Machine).gController = none := h
  unfold invoke
  rw [nativeProcess_empty env thiz data length _ h0]
  simp

theorem callbacks_tailEvents (env : JNIEnv) (data : JObject) (length : jint)
    (heap : JObject → List Int) (recv : Option GlobalRef) (mid : Option MethodID) :
    callbacks (tailEvents env data length heap recv mid) =
      [(recv, mid, "Received " ++ to_string length ++ " bytes")] := by
  simp [tailEvents, callbacks]

theorem callbacks_initEvents_append (env : JNIEnv) (thiz : JObject) (es : List Event) :
    callbacks (initEvents env thiz ++ es) = callbacks es := by
  simp [initEvents, callbacks]

/-- Whatever the state, the callbacks of a call are the one `CallVoidMethod` of
line 38, made on the statics as they are after line 29. -/
theorem callbacks_callTrace (env : JNIEnv) (thiz data : JObject) (length : jint)
    (m : Machine) :
    callbacks (callTrace env thiz data length m) =
      [((nativeProcess env thiz data length m).2.gController,
        (nativeProcess env thiz data length m).2.gOnMessageMethod,
        "Received " ++ to_string length ++ " bytes")] := by
  cases h : m.gController with
  | none =>
    simp [callTrace_empty _ _ _ _ _ h, nativeProcess_empty _ _ _ _ _ h,
      callbacks_initEvents_append, callbacks_tailEvents]
  | some g =>
    simp [callTrace_cached _ _ _ _ _ g h, nativeProcess_cached _ _ _ _ _ g h,
      callbacks_tailEvents, h]

/-! ## The string of line 34 -/

/-- The JNI calls of lines 31-40 contain no call that creates or deletes a
global reference or that resolves a class or a method. -/
theorem tailEvents_no_init (env : JNIEnv) (data : JObject) (length : jint)
    (heap : JObject → List Int) (recv : Option GlobalRef) (mid : Option MethodID) :
    ∀ e ∈ tailEvents env data length heap recv mid,
      e.isNewGlobalRef = false ∧ e.isDeleteGlobalRef = false ∧
      e.isGetObjectClass = false ∧ e.isGetMethodID = false := by
  intro e he
  simp only [tailEvents, List.mem_cons, List.mem_singleton, List.not_mem_nil, or_false] at he
  rcases he with h | h | h | h | h <;> subst h <;>
    simp [Event.isNewGlobalRef, Event.isDeleteGlobalRef, Event.isGetObjectClass,
      Event.isGetMethodID]

/-- Once the cache is filled, an entry point keeps both cached statics and the
heap, and makes no JNI call of lines 26-28. -/
theorem exec_cached (c : Call) (m : Machine) (g : GlobalRef) (h : m.gController = some g) :
    (c.exec m).gController = some g ∧
    (c.exec m).gOnMessageMethod = m.gOnMessageMethod ∧
    (c.exec m).heap = m.heap ∧
    ∃ es, (c.exec m).trace = m.trace ++ es ∧
      ∀ e ∈ es, e.isNewGlobalRef = false ∧ e.isDeleteGlobalRef = false ∧
        e.isGetObjectClass = false ∧ e.isGetMethodID = false := by
  cases c with
  | onLoad vm =>
    refine ⟨h, rfl, rfl, [], ?_, ?_⟩
    · simp [Call.exec, JNI_OnLoad]
    · intro e he
      simp at he
  | process env thiz data length =>
    have hi := invoke_cached env thiz data length m g h
    refine ⟨?_, ?_, ?_, tailEvents env data length m.heap m.gController m.gOnMessageMethod,
      ?_, tailEvents_no_init env data length m.heap m.gController m.gOnMessageMethod⟩
    · show (invoke env thiz data length m).2.gController = some g
      rw [hi]
      exact h
    · show (invoke env thiz data length m).2.gOnMessageMethod = m.gOnMessageMethod
      rw [hi]
    · show (invoke env thiz data length m).2.heap = m.heap
      rw [hi]
    · show (invoke env thiz data length m).2.trace = _
      rw [hi]

/-- The same, over a whole run. -/
theorem run_cached (cs : List Call) (m : Machine) (g : GlobalRef)
    (h : m.gController = some g) :
    (run cs m).gController = some g ∧
    (run cs m).gOnMessageMethod = m.gOnMessageMethod ∧
    (run cs m).heap = m.heap ∧
    ∃ es, (run cs m).trace = m.trace ++ es ∧
      ∀ e ∈ es, e.isNewGlobalRef = false ∧ e.isDeleteGlobalRef = false ∧
        e.isGetObjectClass = false ∧ e.isGetMethodID = false := by
  induction cs generalizing m with
  | nil =>
    refine ⟨h, rfl, rfl, [], by simp [run], ?_⟩
    intro e he
    simp at he
  | cons c cs ih =>
    obtain ⟨hc, hm, hh, es1, ht1, hes1⟩ := exec_cached c m g h
    obtain ⟨hc2, hm2, hh2, es2, ht2, hes2⟩ := ih (c.exec m) hc
    refine ⟨hc2, hm2.trans hm, hh2.trans hh, es1 ++ es2, ?_, ?_⟩
    · show (run cs (c.exec m)).trace = m.trace ++ (es1 ++ es2)
      rw [ht2, ht1, List.append_assoc]
    · intro e he
      rcases List.mem_append.mp he with h1 | h2
      · exact hes1 e h1
      · exact hes2 e h2

theorem run_append (cs1 cs2 : List Call) (m : Machine) :
    run (cs1 ++ cs2) m = run cs2 (run cs1 m) := by
  induction cs1 generalizing m with
  | nil => rfl
  | cons c cs ih => exact ih (c.exec m)

theorem countP_eq_zero_of_forall (p : Event → Bool) (es : List Event)
    (h : ∀ e ∈ es, p e = false) : es.countP p = 0 := by
  rw [List.countP_eq_zero]
  intro e he
  simp [h e he]

/-- A thread of the statement-level model that runs alone does what the native
method does. -/
theorem runAlone_eq_nativeProcess (env : JNIEnv) (thiz data : JObject) (length : jint)
    (m : Machine) :
    ((Thread.start env thiz data length).runAlone 10 m).2 =
        (nativeProcess env thiz data length m).2 ∧
    ((Thread.start env thiz data length).runAlone 10 m).1.pc = PC.done ∧
    ((Thread.start env thiz data length).runAlone 10 m).1.ret =
        some (nativeProcess env thiz data length m).1 := by
  cases h : m.gController <;>
  simp [Thread.runAlone, Thread.step, Thread.start, nativeProcess,
    Java_com_f4hbw_pocsagsdr_SDRController_nativeProcess, h,
    NewGlobalRef, GetObjectClass, GetMethodID, GetByteArrayElements, NewStringUTF,
    CallVoidMethod, DeleteLocalRef, ReleaseByteArrayElements]

/-! ## The claims -/

/-- C2. After a first call by `A` that cached a non-null reference, a call by a
different object `B` makes its one callback on the reference to `A` with the
method handle resolved from the class of `A`; it makes no `NewGlobalRef`,
`GetObjectClass` or `GetMethodID` call, no JNI call on `B`, and leaves the
cache as the first call set it. -/
theorem C2_second_caller_uses_first (envA envB : JNIEnv) (A B dA dB : JObject)
    (LA LB : jint) (m0 : Machine) (h0 : m0.gController = none) (hAB : A ≠ B)
    (hc : (invoke envA A dA LA m0).2.gController ≠ none) :
    (invoke envA A dA LA m0).2.gController = some ⟨A⟩ ∧
    (invoke envA A dA LA m0).2.gOnMessageMethod = onMessage envA A ∧
    callbacks (callTrace envB B dB LB (invoke envA A dA LA m0).2) =
      [(some ⟨A⟩, onMessage envA A, "Received " ++ to_string LB ++ " bytes")] ∧
    (∀ e ∈ callTrace envB B dB LB (invoke envA A dA LA m0).2,
      e.isNewGlobalRef = false ∧ e.isGetObjectClass = false ∧ e.isGetMethodID = false ∧
      e.onObject B = false) ∧
    (invoke envB B dB LB (invoke envA A dA LA m0).2).2.gController = some ⟨A⟩ ∧
    (invoke envB B dB LB (invoke envA A dA LA m0).2).2.gOnMessageMethod =
      onMessage envA A := by
  have hg : envA.globalRefOk = true := by
    cases hg : envA.globalRefOk
    · rw [invoke_empty _ _ _ _ _ h0] at hc
      simp [hg] at hc
    · rfl
  have h1 : (invoke envA A dA LA m0).2.gController = some ⟨A⟩ := by
    rw [invoke_empty _ _ _ _ _ h0]
    simp [hg]
  have h2 : (invoke envA A dA LA m0).2.gOnMessageMethod = onMessage envA A := by
    rw [invoke_empty _ _ _ _ _ h0]
  have hBA : (A == B) = false := by simpa using hAB
  refine ⟨h1, h2, ?_, ?_, ?_, ?_⟩
  · rw [callTrace_cached _ _ _ _ _ _ h1, callbacks_tailEvents, h2]
  · intro e he
    rw [callTrace_cached _ _ _ _ _ _ h1] at he
    obtain ⟨a, _, b, c⟩ := tailEvents_no_init _ _ _ _ _ _ e he
    refine ⟨a, b, c, ?_⟩
    simp only [tailEvents, List.mem_cons, List.mem_singleton, List.not_mem_nil, or_false] at he
    rcases he with h | h | h | h | h <;> subst h <;> simp [Event.onObject, hBA]
  · rw [invoke_cached _ _ _ _ _ _ h1]
    exact h1
  · rw [invoke_cached _ _ _ _ _ _ h1]
    exact h2

/-- Witness of C2: object `1` calls first, object `2` second. -/
theorem C2_witness :
    (Machine.init sampleHeap).gController = none ∧ (1 : JObject) ≠ 2 ∧
    (invoke sampleEnv 1 50 5 (Machine.init sampleHeap)).2.gController ≠ none ∧
    callbacks (callTrace sampleEnv 2 50 9 (invoke sampleEnv 1 50 5 (Machine.init sampleHeap)).2) =
      [(some ⟨1⟩, onMessage sampleEnv 1, "Received " ++ to_string 9 ++ " bytes")] :=
  ⟨rfl, by decide, by rw [invoke_empty _ _ _ _ _ rfl]; simp [sampleEnv],
   (C2_second_caller_uses_first sampleEnv sampleEnv 1 2 50 50 5 9 (Machine.init sampleHeap)
      rfl (by decide) (by rw [invoke_empty _ _ _ _ _ rfl]; simp [sampleEnv])).2.2.1⟩

/-- C3. Two calls that differ only in the byte array passed and in the contents
of the arrays make the same callback (same receiver, same method handle,
same string), return the same value, leave the same three statics and the
same fault flag, and give the Java caller the same outcome. -/
theorem C3_content_independent (env : JNIEnv) (thiz d1 d2 : JObject) (L : jint)
    (m : Machine) (h1 h2 : JObject → List Int) :
    callbacks (callTrace env thiz d1 L { m with heap := h1 }) =
      callbacks (callTrace env thiz d2 L { m with heap := h2 }) ∧
    (nativeProcess env thiz d1 L { m with heap := h1 }).1 =
      (nativeProcess env thiz d2 L { m with heap := h2 }).1 ∧
    (nativeProcess env thiz d1 L { m with heap := h1 }).2.gController =
      (nativeProcess env thiz d2 L { m with heap := h2 }).2.gController ∧
    (nativeProcess env thiz d1 L { m with heap := h1 }).2.gOnMessageMethod =
      (nativeProcess env thiz d2 L { m with heap := h2 }).2.gOnMessageMethod ∧
    (nativeProcess env thiz d1 L { m with heap := h1 }).2.gJvm =
      (nativeProcess env thiz d2 L { m with heap := h2 }).2.gJvm ∧
    (nativeProcess env thiz d1 L { m with heap := h1 }).2.pending =
      (nativeProcess env thiz d2 L { m with heap := h2 }).2.pending ∧
    (invoke env thiz d1 L { m with heap := h1 }).1 =
      (invoke env thiz d2 L { m with heap := h2 }).1 := by
  rcases Option.eq_none_or_eq_some m.gController with h | ⟨g, h⟩
  · have e1 : ({ m with heap := h1 } : Machine).gController = none := h
    have e2 : ({ m with heap := h2 } : Machine).gController = none := h
    simp only [callbacks_callTrace, invoke_empty _ _ _ _ _ e1, invoke_empty _ _ _ _ _ e2,
      nativeProcess_empty _ _ _ _ _ e1, nativeProcess_empty _ _ _ _ _ e2]
    simp
  · have e1 : ({ m with heap := h1 } : Machine).gController = some g := h
    have e2 : ({ m with heap := h2 } : Machine).gController = some g := h
    simp only [callbacks_callTrace, invoke_cached _ _ _ _ _ g e1, invoke_cached _ _ _ _ _ g e2,
      nativeProcess_cached _ _ _ _ _ g e1, nativeProcess_cached _ _ _ _ _ g e2]
    simp

/-- C4. A call leaves the contents of every byte array, the supplied one
included, as they were: the buffer released is the buffer pinned, holding the
elements the array had, and it is released with mode `JNI_ABORT`, under which
nothing is copied back whatever the buffer holds.  Nothing of the array is
retained: `gJvm` is kept, the method handle is the old one or the one
resolved from the caller, the controller is the old one or a reference to the
caller, so if no static referred to the array before the call and the caller
is not the array, no static refers to it afterwards. -/
theorem C4_array_untouched (env : JNIEnv) (thiz data : JObject) (L : jint) (m : Machine) :
    (nativeProcess env thiz data L m).2.heap = m.heap ∧
    (callTrace env thiz data L m).filter Event.isPin =
      [Event.GetByteArrayElements data (if env.pinOk then some ⟨data, m.heap data⟩ else none)] ∧
    (callTrace env thiz data L m).filter Event.isRelease =
      [Event.ReleaseByteArrayElements data
        (if env.pinOk then some ⟨data, m.heap data⟩ else none) JNI_ABORT] ∧
    (∀ (b : Buffer) (s : Machine),
      (ReleaseByteArrayElements env data (some b) JNI_ABORT s).heap = s.heap) ∧
    (nativeProcess env thiz data L m).2.gJvm = m.gJvm ∧
    ((nativeProcess env thiz data L m).2.gOnMessageMethod = m.gOnMessageMethod ∨
      (nativeProcess env thiz data L m).2.gOnMessageMethod = onMessage env thiz) ∧
    ((nativeProcess env thiz data L m).2.gController = m.gController ∨
      (nativeProcess env thiz data L m).2.gController = some ⟨thiz⟩) ∧
    ((∀ g, m.gController = some g → g.target ≠ data) → thiz ≠ data →
      ∀ g, (nativeProcess env thiz data L m).2.gController = some g → g.target ≠ data) := by
  rcases Option.eq_none_or_eq_some m.gController with h | ⟨g0, h⟩
  · rw [nativeProcess_empty _ _ _ _ _ h, callTrace_empty _ _ _ _ _ h]
    refine ⟨rfl, ?_, ?_, ?_, rfl, Or.inr rfl, ?_, ?_⟩
    · simp [initEvents, tailEvents, List.filter, Event.isPin]
    · simp [initEvents, tailEvents, List.filter, Event.isRelease]
    · intro b s
      simp [ReleaseByteArrayElements]
    · cases hg : env.globalRefOk <;> simp [h]
    · intro _ hne g hg
      cases hr : env.globalRefOk
      · simp [hr] at hg
      · simp [hr] at hg
        subst hg
        exact hne
  · rw [nativeProcess_cached _ _ _ _ _ g0 h, callTrace_cached _ _ _ _ _ g0 h]
    refine ⟨rfl, ?_, ?_, ?_, rfl, Or.inl rfl, Or.inl rfl, ?_⟩
    · simp [tailEvents, List.filter, Event.isPin]
    · simp [tailEvents, List.filter, Event.isRelease]
    · intro b s
      simp [ReleaseByteArrayElements]
    · intro hold _ g hg
      exact hold g hg

/-- Witness of C4: the first call, where the caller `1` is not the array `50`. -/
theorem C4_witness :
    (∀ g, (Machine.init sampleHeap).gController = some g → g.target ≠ 50) ∧
    (1 : JObject) ≠ 50 ∧
    (∀ g, (nativeProcess sampleEnv 1 50 5 (Machine.init sampleHeap)).2.gController = some g →
      g.target ≠ 50) ∧
    (nativeProcess sampleEnv 1 50 5 (Machine.init sampleHeap)).2.heap = sampleHeap :=
  ⟨fun g hg => by simp [Machine.init] at hg, by decide,
   (C4_array_untouched sampleEnv 1 50 5 (Machine.init sampleHeap)).2.2.2.2.2.2.2
      (fun g hg => by simp [Machine.init] at hg) (by decide),
   (C4_array_untouched sampleEnv 1 50 5 (Machine.init sampleHeap)).1⟩

/-- C7. When the first call finds that the class of the caller has no
`onNativeMessage(String)`, so that `GetMethodID` answers `NULL`: the call makes
the same JNI calls in the same order as a call whose lookup succeeds, it
passes the `NULL` handle to its one `CallVoidMethod`, the native code returns
`length` (not an error value), the `NULL` handle stays in the cache, and the
Java caller gets a fault. -/
theorem C7_unresolved_method_faults (env : JNIEnv) (A data : JObject) (L : jint)
    (m0 : Machine) (h0 : m0.gController = none) (hm : onMessage env A = none) :
    callTrace env A data L m0 =
      initEvents env A ++
        tailEvents env data L m0.heap (if env.globalRefOk then some ⟨A⟩ else none) none ∧
    callbacks (callTrace env A data L m0) =
      [(if env.globalRefOk then some ⟨A⟩ else none, none,
        "Received " ++ to_string L ++ " bytes")] ∧
    (nativeProcess env A data L m0).1 = L ∧
    (invoke env A data L m0).2.gOnMessageMethod = none ∧
    (invoke env A data L m0).2.pending = true ∧
    (invoke env A data L m0).1 = Outcome.fault := by
  refine ⟨?_, ?_, rfl, ?_, ?_, ?_⟩
  · rw [callTrace_empty _ _ _ _ _ h0, hm]
  · rw [callTrace_empty _ _ _ _ _ h0, callbacks_initEvents_append, callbacks_tailEvents, hm]
  · rw [invoke_empty _ _ _ _ _ h0]
    exact hm
  · rw [invoke_empty _ _ _ _ _ h0]
    simp [hm]
  · rw [invoke_empty _ _ _ _ _ h0]
    simp [hm]

/-- Witness of C7: the first call is made by object `2`, whose class `102` has
no such method. -/
theorem C7_witness :
    (Machine.init sampleHeap).gController = none ∧ onMessage sampleEnv 2 = none ∧
    (invoke sampleEnv 2 50 5 (Machine.init sampleHeap)).1 = Outcome.fault ∧
    callbacks (callTrace sampleEnv 2 50 5 (Machine.init sampleHeap)) =
      [(if sampleEnv.globalRefOk then some ⟨2⟩ else none, none,
        "Received " ++ to_string 5 ++ " bytes")] :=
  ⟨rfl, by decide,
   (C7_unresolved_method_faults sampleEnv 2 50 5 (Machine.init sampleHeap) rfl
      (by decide)).2.2.2.2.2,
   (C7_unresolved_method_faults sampleEnv 2 50 5 (Machine.init sampleHeap) rfl
      (by decide)).2.1⟩

/-- C8. If the first call caches a non-null controller and a `NULL` method
handle, then after every later run of calls, with any callers, the cached
method handle is still `NULL`, the controller is still the first one, and the
run has made no `GetMethodID` call; a further call by an object whose class
has the method changes nothing of this. -/
theorem C8_resolution_never_retried (env : JNIEnv) (A data : JObject) (L : jint)
    (m0 : Machine) (cs : List Call) (h0 : m0.gController = none)
    (hc : ((Call.process env A data L).exec m0).gController ≠ none)
    (hm : ((Call.process env A data L).exec m0).gOnMessageMethod = none) :
    (run cs ((Call.process env A data L).exec m0)).gOnMessageMethod = none ∧
    (run cs ((Call.process env A data L).exec m0)).gController = some ⟨A⟩ ∧
    (run cs ((Call.process env A data L).exec m0)).trace.countP Event.isGetMethodID =
      ((Call.process env A data L).exec m0).trace.countP Event.isGetMethodID ∧
    (∀ (envB : JNIEnv) (B dB : JObject) (LB : jint), onMessage envB B ≠ none →
      (run (cs ++ [Call.process envB B dB LB])
        ((Call.process env A data L).exec m0)).gOnMessageMethod = none ∧
      (callTrace envB B dB LB (run cs ((Call.process env A data L).exec m0))).countP
        Event.isGetMethodID = 0) := by
  have h1 : ((Call.process env A data L).exec m0).gController = some ⟨A⟩ := by
    have e : ((Call.process env A data L).exec m0).gController =
        (if env.globalRefOk then some ⟨A⟩ else none) := by
      show (invoke env A data L m0).2.gController = _
      rw [invoke_empty _ _ _ _ _ h0]
    cases hg : env.globalRefOk
    · rw [e, hg] at hc
      simp at hc
    · rw [e, hg]
      rfl
  obtain ⟨r1, r2, _, es, r4, r5⟩ := run_cached cs _ ⟨A⟩ h1
  refine ⟨r2.trans hm, r1, ?_, ?_⟩
  · rw [r4, List.countP_append,
      countP_eq_zero_of_forall Event.isGetMethodID es (fun e he => (r5 e he).2.2.2)]
    rfl
  · intro envB B dB LB _
    constructor
    · rw [run_append]
      obtain ⟨_, q2, _, _, _, _⟩ :=
        run_cached [Call.process envB B dB LB] (run cs ((Call.process env A data L).exec m0))
          ⟨A⟩ r1
      exact q2.trans (r2.trans hm)
    · rw [callTrace_cached _ _ _ _ _ _ r1]
      exact countP_eq_zero_of_forall _ _
        (fun e he => (tailEvents_no_init _ _ _ _ _ _ e he).2.2.2)

/-- Witness of C8: object `2` (no such method) calls first, then object `1`
(whose class has the method) calls twice. -/
theorem C8_witness :
    (Machine.init sampleHeap).gController = none ∧
    ((Call.process sampleEnv 2 50 5).exec (Machine.init sampleHeap)).gController ≠ none ∧
    ((Call.process sampleEnv 2 50 5).exec (Machine.init sampleHeap)).gOnMessageMethod = none ∧
    (run [Call.process sampleEnv 1 50 9, Call.process sampleEnv 1 50 9]
      ((Call.process sampleEnv 2 50 5).exec (Machine.init sampleHeap))).gOnMessageMethod =
      none :=
  have hc : ((Call.process sampleEnv 2 50 5).exec (Machine.init sampleHeap)).gController ≠
      none := by
    show (invoke sampleEnv 2 50 5 (Machine.init sampleHeap)).2.gController ≠ none
    rw [invoke_empty _ _ _ _ _ rfl]
    simp [sampleEnv]
  have hm : ((Call.process sampleEnv 2 50 5).exec (Machine.init sampleHeap)).gOnMessageMethod =
      none := by
    show (invoke sampleEnv 2 50 5 (Machine.init sampleHeap)).2.gOnMessageMethod = none
    rw [invoke_empty _ _ _ _ _ rfl]
    decide
  ⟨rfl, hc, hm,
   (C8_resolution_never_retried sampleEnv 2 50 5 (Machine.init sampleHeap)
      [Call.process sampleEnv 1 50 9, Call.process sampleEnv 1 50 9] rfl hc hm).1⟩

/-- C9. Every call of `nativeProcess` makes exactly one `GetByteArrayElements`,
one `NewStringUTF`, one `CallVoidMethod`, one `DeleteLocalRef` and one
`ReleaseByteArrayElements`, in this order and after the calls of the lazy
initialisation if there are any; the string deleted is the string created and
the buffer released is the buffer pinned; no call makes a `DeleteGlobalRef`.
Over a run that starts with a call on the empty cache whose `NewGlobalRef`
succeeds, that first call makes the only `NewGlobalRef` of the run, and the run
makes no `DeleteGlobalRef`. -/
theorem C9_resources_balanced (env : JNIEnv) (thiz data : JObject) (L : jint)
    (m : Machine) :
    callTrace env thiz data L m =
      (if m.gController = none then initEvents env thiz else []) ++
        tailEvents env data L m.heap (nativeProcess env thiz data L m).2.gController
          (nativeProcess env thiz data L m).2.gOnMessageMethod ∧
    (callTrace env thiz data L m).countP Event.isPin = 1 ∧
    (callTrace env thiz data L m).countP Event.isNewString = 1 ∧
    (callTrace env thiz data L m).countP Event.isCallback = 1 ∧
    (callTrace env thiz data L m).countP Event.isDeleteLocal = 1 ∧
    (callTrace env thiz data L m).countP Event.isRelease = 1 ∧
    (callTrace env thiz data L m).countP Event.isDeleteGlobalRef = 0 ∧
    (∀ cs : List Call, m.gController = none → env.globalRefOk = true →
      ((Call.process env thiz data L).exec m).trace.countP Event.isNewGlobalRef =
        m.trace.countP Event.isNewGlobalRef + 1 ∧
      (run (Call.process env thiz data L :: cs) m).trace.countP Event.isNewGlobalRef =
        m.trace.countP Event.isNewGlobalRef + 1 ∧
      (run (Call.process env thiz data L :: cs) m).trace.countP Event.isDeleteGlobalRef =
        m.trace.countP Event.isDeleteGlobalRef) := by
  have hshape : callTrace env thiz data L m =
      (if m.gController = none then initEvents env thiz else []) ++
        tailEvents env data L m.heap (nativeProcess env thiz data L m).2.gController
          (nativeProcess env thiz data L m).2.gOnMessageMethod := by
    rcases Option.eq_none_or_eq_some m.gController with h | ⟨g, h⟩
    · rw [callTrace_empty _ _ _ _ _ h, nativeProcess_empty _ _ _ _ _ h]
      simp [h]
    · rw [callTrace_cached _ _ _ _ _ g h, nativeProcess_cached _ _ _ _ _ g h]
      simp [h]
  refine ⟨hshape, ?_, ?_, ?_, ?_, ?_, ?_, ?_⟩
  · rw [hshape]
    by_cases h : m.gController = none <;>
      simp [h, initEvents, tailEvents, List.countP_cons, Event.isPin]
  · rw [hshape]
    by_cases h : m.gController = none <;>
      simp [h, initEvents, tailEvents, List.countP_cons, Event.isNewString]
  · rw [hshape]
    by_cases h : m.gController = none <;>
      simp [h, initEvents, tailEvents, List.countP_cons, Event.isCallback]
  · rw [hshape]
    by_cases h : m.gController = none <;>
      simp [h, initEvents, tailEvents, List.countP_cons, Event.isDeleteLocal]
  · rw [hshape]
    by_cases h : m.gController = none <;>
      simp [h, initEvents, tailEvents, List.countP_cons, Event.isRelease]
  · rw [hshape]
    by_cases h : m.gController = none <;>
      simp [h, initEvents, tailEvents, List.countP_cons, Event.isDeleteGlobalRef]
  · intro cs h0 hg
    have e : (Call.process env thiz data L).exec m = (invoke env thiz data L m).2 := rfl
    have hfirst : ((Call.process env thiz data L).exec m).gController = some ⟨thiz⟩ := by
      rw [e, invoke_empty _ _ _ _ _ h0]
      simp [hg]
    have hn : ((Call.process env thiz data L).exec m).trace.countP Event.isNewGlobalRef =
        m.trace.countP Event.isNewGlobalRef + 1 := by
      rw [e, invoke_empty _ _ _ _ _ h0]
      simp [initEvents, tailEvents, List.countP_cons, List.countP_append, Event.isNewGlobalRef]
    have hd : ((Call.process env thiz data L).exec m).trace.countP Event.isDeleteGlobalRef =
        m.trace.countP Event.isDeleteGlobalRef := by
      rw [e, invoke_empty _ _ _ _ _ h0]
      simp [initEvents, tailEvents, List.countP_cons, List.countP_append,
        Event.isDeleteGlobalRef]
    obtain ⟨_, _, _, es, r4, r5⟩ := run_cached cs _ ⟨thiz⟩ hfirst
    refine ⟨hn, ?_, ?_⟩
    · show (run cs ((Call.process env thiz data L).exec m)).trace.countP _ = _
      rw [r4, List.countP_append,
        countP_eq_zero_of_forall Event.isNewGlobalRef es (fun e he => (r5 e he).1), hn]
    · show (run cs ((Call.process env thiz data L).exec m)).trace.countP _ = _
      rw [r4, List.countP_append,
        countP_eq_zero_of_forall Event.isDeleteGlobalRef es (fun e he => (r5 e he).2.1), hd,
        Nat.add_zero]

/-- Witness of C9: from the initial state, a call by object `1` followed by a
call by object `2` and a reload. -/
theorem C9_witness :
    (Machine.init sampleHeap).gController = none ∧ sampleEnv.globalRefOk = true ∧
    (run (Call.process sampleEnv 1 50 5 :: [Call.process sampleEnv 2 50 9, Call.onLoad 3])
      (Machine.init sampleHeap)).trace.countP Event.isNewGlobalRef =
      (Machine.init sampleHeap).trace.countP Event.isNewGlobalRef + 1 :=
  ⟨rfl, rfl,
   ((C9_resources_balanced sampleEnv 1 50 5 (Machine.init sampleHeap)).2.2.2.2.2.2.2
      [Call.process sampleEnv 2 50 9, Call.onLoad 3] rfl rfl).2.1⟩

/-- C10. In the interleaving model in which the test of line 25 and the
assignment of line 26 are separate steps, two threads that enter
`nativeProcess` with callers `A` and `B` on the empty cache have an execution
in which both pass the test while `gController` is still `NULL`, both create a
global reference and both assign `gController`, and both return; two global
references have been created, and the cache ends with the reference to `B`
(the second caller) and the method handle resolved for `A`. -/
theorem C10_unsynchronised_lazy_init (envA envB : JNIEnv) (A B dA dB : JObject)
    (LA LB : jint) (heap : JObject → List Int)
    (hA : envA.globalRefOk = true) (hB : envB.globalRefOk = true) :
    ∃ schedule : List Bool,
      (interleave (schedule.take 2) (raceStart envA envB A B dA dB LA LB heap)).first.pc =
        PC.newGlobalRef ∧
      (interleave (schedule.take 2) (raceStart envA envB A B dA dB LA LB heap)).second.pc =
        PC.newGlobalRef ∧
      (interleave (schedule.take 2)
        (raceStart envA envB A B dA dB LA LB heap)).shared.gController = none ∧
      (interleave (schedule.take 3)
        (raceStart envA envB A B dA dB LA LB heap)).shared.gController = some ⟨A⟩ ∧
      (interleave (schedule.take 4)
        (raceStart envA envB A B dA dB LA LB heap)).shared.gController = some ⟨B⟩ ∧
      (interleave schedule (raceStart envA envB A B dA dB LA LB heap)).first.ret = some LA ∧
      (interleave schedule (raceStart envA envB A B dA dB LA LB heap)).second.ret = some LB ∧
      (interleave schedule
        (raceStart envA envB A B dA dB LA LB heap)).shared.trace.countP Event.isNewGlobalRef =
        2 ∧
      (interleave schedule (raceStart envA envB A B dA dB LA LB heap)).shared.gController =
        some ⟨B⟩ ∧
      (interleave schedule
        (raceStart envA envB A B dA dB LA LB heap)).shared.gOnMessageMethod =
        onMessage envA A := by
  refine ⟨racySchedule, ?_⟩
  simp only [interleave, racySchedule, raceStart, List.take]
  simp only [System.step, Thread.start, Machine.init, Bool.false_eq_true, if_false, if_true,
    Thread.step, NewGlobalRef, GetObjectClass, GetMethodID, Option.isNone,
    GetByteArrayElements, NewStringUTF, CallVoidMethod, DeleteLocalRef,
    ReleaseByteArrayElements]
  simp [hA, hB, onMessage, Event.isNewGlobalRef, List.countP_cons]

/-- Witness of C10: the callers are objects `1` and `2`. -/
theorem C10_witness :
    sampleEnv.globalRefOk = true ∧
    ∃ schedule : List Bool,
      (interleave schedule (raceStart sampleEnv sampleEnv 1 2 50 50 5 9 sampleHeap)).shared.gController =
        some ⟨2⟩ ∧
      (interleave schedule
        (raceStart sampleEnv sampleEnv 1 2 50 50 5 9 sampleHeap)).shared.gOnMessageMethod =
        onMessage sampleEnv 1 :=
  ⟨rfl,
   (C10_unsynchronised_lazy_init sampleEnv sampleEnv 1 2 50 50 5 9 sampleHeap rfl rfl).elim
     (fun s hs => ⟨s, hs.2.2.2.2.2.2.2.2.1, hs.2.2.2.2.2.2.2.2.2⟩)⟩

end PocsagSdr
